import Mathlib

/-!
Verification of the multi-source triangulation core of the Finance-copilot
repository.  The Python sources under `data_pipeline/` are shallowly embedded
as executable Lean definitions: floats become exact rationals (`ℚ`), Python
`None` becomes `Option`, raised exceptions become `Except`, and the JSON
values decoded from provider responses become an inductive `Json` type.
Where a Python string operation (comparison, `str.format`, `str.split`) is
used by the source, an equivalent structurally recursive function on
character lists is defined here so that concrete runs reduce inside the
kernel.
-/

/-! ## Python string primitives -/

/-- Lexicographic comparison of character lists by code point, the order
Python uses for `<` on strings (also the order of Lean's `String.lt`,
restated by structural recursion so that it evaluates by `decide`). -/
def charListLt : List Char → List Char → Bool
  | [], [] => false
  | [], _ :: _ => true
  | _ :: _, [] => false
  | a :: as, b :: bs =>
    if a.toNat < b.toNat then true
    else if b.toNat < a.toNat then false
    else charListLt as bs

/-- Python string comparison `s < t`. -/
def pyStrLt (s t : String) : Bool :=
  charListLt s.data t.data

/-- Python `max` over a list of strings: `none` on the empty list, otherwise
the lexicographically greatest element (the earliest one on ties, as Python
keeps the first maximal element). -/
def pyMax (l : List String) : Option String :=
  l.foldl
    (fun acc x =>
      match acc with
      | none => some x
      | some m => some (if pyStrLt m x then x else m))
    none

/-- Does `needle` occur as a contiguous substring of the character list?
Python's `in` operator on strings. -/
def containsSub (needle : List Char) : List Char → Bool
  | [] => needle.isEmpty
  | c :: rest => needle.isPrefixOf (c :: rest) || containsSub needle rest

/-- Python `sub in s` for strings. -/
def pyStrContains (s sub : String) : Bool :=
  containsSub sub.data s.data

/-- Replacement of every occurrence of `pat` in a string, processed left to
right, with explicit fuel (the caller passes the length of the subject, which
bounds the number of steps).  This models the substitution performed by
Python's `str.format` for the single `country` placeholder used in the
mapping tables. -/
def replacePatAux (pat repl : List Char) : ℕ → List Char → List Char
  | 0, s => s
  | _ + 1, [] => []
  | fuel + 1, c :: rest =>
    if pat ≠ [] ∧ pat.isPrefixOf (c :: rest) then
      repl ++ replacePatAux pat repl fuel (rest.drop (pat.length - 1))
    else c :: replacePatAux pat repl fuel rest

/-- Python `template.format(country=c)` for templates whose only placeholder
is the literal country placeholder. -/
def pyFormatCountry (template country : String) : String :=
  String.mk (replacePatAux ("\x7bcountry\x7d".data) country.data template.data.length template.data)

/-- Python `str.split(sep)` for a one-character separator, by structural
recursion on the character list. -/
def splitOnCharAux (sep : Char) : List Char → List (List Char)
  | [] => [[]]
  | c :: rest =>
    match splitOnCharAux sep rest with
    | [] => [[c]]
    | h :: t => if c = sep then [] :: h :: t else (c :: h) :: t

/-- Python `s.split(sep)` for a one-character separator. -/
def pySplitOnChar (s : String) (sep : Char) : List String :=
  (splitOnCharAux sep s.data).map String.mk

/-- Parses a list of decimal digit characters; `none` when empty or when a
non-digit occurs. -/
def parseNatDigits : List Char → Option ℕ
  | [] => none
  | cs =>
    cs.foldl
      (fun acc c =>
        acc.bind (fun n => if c.isDigit then some (n * 10 + (c.toNat - 48)) else none))
      (some 0)

/-- Python `float(s)` on a decimal string literal: optional sign, integer
part, optional fractional part.  (Python also accepts exponents, infinities
and surrounding whitespace; the provider observations exercised here are
plain decimals or non-numeric strings, for which this model is exact.) -/
def parseDecimal (s : String) : Option ℚ :=
  let cs := s.data
  let sgnRest : ℚ × List Char :=
    match cs with
    | '-' :: t => (-1, t)
    | '+' :: t => (1, t)
    | _ => (1, cs)
  let sgn := sgnRest.1
  let rest := sgnRest.2
  let ip := rest.takeWhile (fun c => c.isDigit)
  let r2 := rest.drop ip.length
  match r2 with
  | [] => (parseNatDigits ip).map (fun n => sgn * (n : ℚ))
  | '.' :: fp =>
    if fp.all (fun c => c.isDigit) ∧ (ip ≠ [] ∨ fp ≠ []) then
      some (sgn * (((parseNatDigits ip).getD 0 : ℚ) +
        ((parseNatDigits fp).getD 0 : ℚ) / (10 ^ fp.length)))
    else none
  | _ => none

/-- Python `int(s)`: optional sign followed by decimal digits. -/
def parsePyInt (s : String) : Option ℤ :=
  match s.data with
  | '-' :: t => (parseNatDigits t).map (fun n => -(n : ℤ))
  | '+' :: t => (parseNatDigits t).map (fun n => (n : ℤ))
  | cs => (parseNatDigits cs).map (fun n => (n : ℤ))

/-- Insertion of a string into a sorted list under Python's string order;
with `pySortStrings` this models Python's `sorted` on a list of strings. -/
def pyInsertString (x : String) : List String → List String
  | [] => [x]
  | y :: ys => if pyStrLt y x then y :: pyInsertString x ys else x :: y :: ys

/-- Python `sorted` on a list of strings (ascending, stable). -/
def pySortStrings : List String → List String
  | [] => []
  | x :: xs => pyInsertString x (pySortStrings xs)

/-- Renders a rational with two decimal places, standing in for the `.2f`
format specifier applied to floats in the source's f-strings (rounding half
away from zero rather than the float's half-to-even; no verified statement
inspects the rendered digits). -/
def fmt2 (q : ℚ) : String :=
  let scaled : ℤ := round (q * 100)
  let n := scaled.natAbs
  let whole := n / 100
  let frac := n % 100
  let fracStr := if frac < 10 then "0" ++ toString frac else toString frac
  (if scaled < 0 then "-" else "") ++ toString whole ++ "." ++ fracStr

/-! ## JSON values and Python dynamic semantics

`Json` models the value returned by `response.json()`.  The `py*` helpers
give the exact Python semantics of the operations the provider clients apply
to it; each returns `Except PyExc` so that an operation that raises in
Python produces an `.error` here. -/

inductive Json where
  | null : Json
  | bool (b : Bool) : Json
  | str (s : String) : Json
  | num (q : ℚ) : Json
  | arr (elems : List Json) : Json
  | obj (fields : List (String × Json)) : Json

/-- Python exceptions that the embedded client code can raise.
`requestException` stands for `requests.RequestException` (which includes
the JSON-decoding errors raised by `response.json()`); the others are the
built-in exceptions raised by indexing, `float()`, `int()` and attribute
access. -/
inductive PyExc where
  | requestException (msg : String) : PyExc
  | valueError (msg : String) : PyExc
  | keyError (key : String) : PyExc
  | typeError (msg : String) : PyExc
  | attributeError (msg : String) : PyExc
  | indexError (msg : String) : PyExc
deriving DecidableEq

/-- Python equality of a JSON value against a string literal: only an equal
string compares equal; values of any other type compare unequal (Python's
`==` between different types is `False`, not an error). -/
def jsonEqStr (j : Json) (s : String) : Bool :=
  match j with
  | Json.str t => t == s
  | _ => false

/-- Python truthiness: `None`, `False`, `0`, and empty strings, lists and
dicts are falsy. -/
def pyFalsy : Json → Bool
  | Json.null => true
  | Json.bool b => !b
  | Json.str s => s.isEmpty
  | Json.num q => q == 0
  | Json.arr xs => xs.isEmpty
  | Json.obj fs => fs.isEmpty

/-- Python `d.get(k, default)`: dictionary lookup with a default; raises
`AttributeError` when the receiver is not a dict. -/
def pyGet (j : Json) (k : String) (default : Json) : Except PyExc Json :=
  match j with
  | Json.obj fs => Except.ok ((List.lookup k fs).getD default)
  | _ => Except.error (PyExc.attributeError ("object has no attribute get"))

/-- Python `d[k]` for a string key: `KeyError` when the key is absent from a
dict, `TypeError` when the receiver is a list, a string or another
non-subscriptable value. -/
def pyIndexKey (j : Json) (k : String) : Except PyExc Json :=
  match j with
  | Json.obj fs =>
    match List.lookup k fs with
    | some v => Except.ok v
    | none => Except.error (PyExc.keyError k)
  | Json.arr _ => Except.error (PyExc.typeError ("list indices must be integers"))
  | Json.str _ => Except.error (PyExc.typeError ("string indices must be integers"))
  | _ => Except.error (PyExc.typeError ("object is not subscriptable"))

/-- Python `l[i]` for an integer index on a list, with negative indices
counting from the end; `IndexError` out of range, `TypeError` on a
non-list. -/
def pyIndexInt (j : Json) (i : ℤ) : Except PyExc Json :=
  match j with
  | Json.arr xs =>
    let k : ℤ := if i < 0 then (xs.length : ℤ) + i else i
    if h : 0 ≤ k ∧ k.toNat < xs.length then Except.ok (xs.get ⟨k.toNat, h.2⟩)
    else Except.error (PyExc.indexError ("list index out of range"))
  | _ => Except.error (PyExc.typeError ("object is not subscriptable"))

/-- Python `k in j`: key membership for dicts, element equality for lists,
substring test for strings, `TypeError` otherwise.  Only string left
operands occur in the sources. -/
def pyContainsKey (j : Json) (k : String) : Except PyExc Bool :=
  match j with
  | Json.obj fs => Except.ok (fs.any (fun f => f.1 == k))
  | Json.arr xs => Except.ok (xs.any (fun x => jsonEqStr x k))
  | Json.str t => Except.ok (pyStrContains t k)
  | _ => Except.error (PyExc.typeError ("argument is not iterable"))

/-- Python iteration `for x in j`: the elements of a list, the keys of a
dict, the one-character strings of a string; `TypeError` otherwise. -/
def pyIter : Json → Except PyExc (List Json)
  | Json.arr xs => Except.ok xs
  | Json.obj fs => Except.ok (fs.map (fun f => Json.str f.1))
  | Json.str s => Except.ok (s.data.map (fun c => Json.str (String.singleton c)))
  | _ => Except.error (PyExc.typeError ("object is not iterable"))

/-- Python `d.keys()` as a list; `AttributeError` on a non-dict. -/
def pyKeys (j : Json) : Except PyExc (List String) :=
  match j with
  | Json.obj fs => Except.ok (fs.map (fun f => f.1))
  | _ => Except.error (PyExc.attributeError ("object has no attribute keys"))

/-- Python `len(j)`; `TypeError` on numbers and `None`. -/
def pyLen (j : Json) : Except PyExc ℕ :=
  match j with
  | Json.arr xs => Except.ok xs.length
  | Json.obj fs => Except.ok fs.length
  | Json.str s => Except.ok s.length
  | _ => Except.error (PyExc.typeError ("object has no len"))

/-- Python `float(v)` on a JSON value: numbers pass through, numeric strings
are parsed, a non-numeric string raises `ValueError`, `None` and containers
raise `TypeError`. -/
def pyFloat (v : Json) : Except PyExc ℚ :=
  match v with
  | Json.num q => Except.ok q
  | Json.bool b => Except.ok (if b then 1 else 0)
  | Json.str s =>
    match parseDecimal s with
    | some q => Except.ok q
    | none => Except.error (PyExc.valueError ("could not convert string to float: " ++ s))
  | _ => Except.error (PyExc.typeError ("float argument must be a string or a number"))

/-- Coerces a JSON value expected to be a string (the `date` and period
labels of the provider responses).  The Python dataclass stores the raw
value untyped; this model fixes the period field as `String`, so a
non-string label is rejected here.  No verified statement depends on that
case. -/
def jsonAsStr (j : Json) : Except PyExc String :=
  match j with
  | Json.str s => Except.ok s
  | _ => Except.error (PyExc.typeError ("period label is not a string"))

/-! ## Data model (`data_pipeline/config.py`) -/

/-- Supported macroeconomic metrics (`MetricType` in `config.py`). -/
inductive MetricType where
  | gdp_growth : MetricType
  | inflation : MetricType
  | unemployment : MetricType
  | interest_rate : MetricType
deriving DecidableEq

/-- The `.value` string of each `MetricType` enum member. -/
def MetricType.value : MetricType → String
  | MetricType.gdp_growth => "gdp_growth"
  | MetricType.inflation => "inflation"
  | MetricType.unemployment => "unemployment"
  | MetricType.interest_rate => "interest_rate"

/-- Confidence levels based on source agreement (`ConfidenceLevel` in
`config.py`). -/
inductive ConfidenceLevel where
  | HIGH : ConfidenceLevel
  | MEDIUM : ConfidenceLevel
  | LOW : ConfidenceLevel
  | SINGLE_SOURCE : ConfidenceLevel
  | NO_DATA : ConfidenceLevel
deriving DecidableEq

/-- One source's answer for one (metric, country) pair (`MacroDataPoint` in
`config.py`).  Float values become exact rationals; `Optional` fields become
`Option`. -/
structure MacroDataPoint where
  source : String
  metric : String
  country : String
  country_code : String
  value : Option ℚ
  unit : String
  period : String
  retrieved_at : String
  raw_response : Option Json
  error : Option String

/-- Result of triangulating data across multiple sources
(`TriangulatedResult` in `config.py`). -/
structure TriangulatedResult where
  metric : String
  country : String
  country_code : String
  period : String
  confidence : ConfidenceLevel
  consensus_value : Option ℚ
  fred_value : Option ℚ
  worldbank_value : Option ℚ
  oecd_value : Option ℚ
  explanation : String
  sources_used : List String
  disagreement_details : Option String

/-! ## Mapping tables (`data_pipeline/mappings.py`) -/

/-- One entry of `COUNTRY_MAPPINGS`: display name and per-provider country
identifiers. -/
structure CountryInfo where
  name : String
  fred : String
  wb : String
  oecd : String

/-- `COUNTRY_MAPPINGS` as a lookup: the four supported ISO codes map to
their entry; `.get` on any other code yields `none`. -/
def COUNTRY_MAPPINGS (code : String) : Option CountryInfo :=
  if code = "USA" then some ⟨"United States", "USA", "USA", "USA"⟩
  else if code = "IND" then some ⟨"India", "IND", "IND", "IND"⟩
  else if code = "EUU" then some ⟨"European Union", "EUU", "EUU", "EA20"⟩
  else if code = "CHN" then some ⟨"China", "CHN", "CHN", "CHN"⟩
  else none

/-- `METRIC_MAPPINGS[metric]["fred"]`: the per-country FRED series ids plus
the `default` template entry, as an association list in source order. -/
def fredMetricConfig : MetricType → List (String × String)
  | MetricType.gdp_growth =>
    [("USA", "A191RL1Q225SBEA"), ("IND", "INDGDPRQPSMEI"),
     ("EUU", "CLVMNACSCAB1GQEA19"), ("CHN", "CHNGDPRQPSMEI"),
     ("default", "CLVMNACSCAB1GQ\x7bcountry\x7d")]
  | MetricType.inflation =>
    [("USA", "CPIAUCSL"), ("IND", "INDCPIALLMINMEI"),
     ("EUU", "CP0000EZ19M086NEST"), ("CHN", "CHNCPIALLMINMEI"),
     ("default", "CPALTT01\x7bcountry\x7dM659N")]
  | MetricType.unemployment =>
    [("USA", "UNRATE"), ("IND", "LMUNRRTTINQ156S"),
     ("EUU", "LRHUTTTTEZM156S"), ("CHN", "LMUNRRTTCNM156S"),
     ("default", "LRUN64TT\x7bcountry\x7dQ156S")]
  | MetricType.interest_rate =>
    [("USA", "FEDFUNDS"), ("IND", "INDIRLTLT01STM"),
     ("EUU", "ECBMRRFR"), ("CHN", "INTDSRCNM193N"),
     ("default", "IR3TIB01\x7bcountry\x7dM156N")]

/-- `METRIC_MAPPINGS[metric]["worldbank"]`: one indicator id per metric. -/
def worldbankMetricIndicator : MetricType → String
  | MetricType.gdp_growth => "NY.GDP.MKTP.KD.ZG"
  | MetricType.inflation => "FP.CPI.TOTL.ZG"
  | MetricType.unemployment => "SL.UEM.TOTL.ZS"
  | MetricType.interest_rate => "FR.INR.RINR"

/-- `METRIC_MAPPINGS[metric]["oecd"]`: one dataset-path template per
metric. -/
def oecdMetricPath : MetricType → String
  | MetricType.gdp_growth => "QNA/B1_GE.\x7bcountry\x7d.VOBARSA.Q"
  | MetricType.inflation => "PRICES_CPI/CPALTT01.\x7bcountry\x7d.GP.A"
  | MetricType.unemployment => "LFS_SEXAGE_I_R/\x7bcountry\x7d.MW.Y15T64.UR.A"
  | MetricType.interest_rate => "MEI_FIN/\x7bcountry\x7d.IRSTCI.ST.M"

/-! ## Triangulation engine (`data_pipeline/triangulation.py`) -/

/-- `TriangulationEngine._values_agree`: two values agree when both are
zero, when exactly one is zero and the absolute difference is within
tolerance, or otherwise when the relative difference against the mean of
the absolute values is within the tolerance percentage. -/
def values_agree (tolerance_percent val1 val2 : ℚ) : Bool :=
  if val1 = 0 ∧ val2 = 0 then true
  else if val1 = 0 ∨ val2 = 0 then decide (|val1 - val2| ≤ tolerance_percent)
  else decide (|val1 - val2| / ((|val1| + |val2|) / 2) * 100 ≤ tolerance_percent)

/-- `TriangulationEngine._calculate_consensus`: `None` on the empty list,
otherwise the median of the sorted values (average of the two middle
elements on even length).  Python's `sorted` is embedded as insertion sort;
the indices taken are in range whenever the list is non-empty, so `getD`
with an arbitrary default is exact. -/
def calculate_consensus (values : List ℚ) : Option ℚ :=
  if values = [] then none
  else
    let sorted_values := values.insertionSort (fun a b => a ≤ b)
    let n := sorted_values.length
    if n % 2 = 0 then
      some ((sorted_values.getD (n / 2 - 1) 0 + sorted_values.getD (n / 2) 0) / 2)
    else some (sorted_values.getD (n / 2) 0)

/-- `TriangulationEngine._determine_confidence`: the confidence level and
explanation computed from the three optional provider values.  The list
`valid_values` and the branch structure follow the source line by line; in
the final branch (all three sources available) the source reads the three
arguments directly, which are all present exactly when that branch is
reached, so `getD 0` there always returns the wrapped value. -/
def determine_confidence (tolerance_percent : ℚ)
    (fred_val wb_val oecd_val : Option ℚ) : ConfidenceLevel × String :=
  let valid_values : List (String × ℚ) :=
    (match fred_val with | some v => [("FRED", v)] | none => []) ++
    (match wb_val with | some v => [("World Bank", v)] | none => []) ++
    (match oecd_val with | some v => [("OECD", v)] | none => [])
  if valid_values.length = 0 then
    (ConfidenceLevel.NO_DATA, "No data available from any source.")
  else if valid_values.length = 1 then
    let sv := valid_values.getD 0 ("", 0)
    (ConfidenceLevel.SINGLE_SOURCE,
      "Only " ++ sv.1 ++ " provided data (" ++ fmt2 sv.2 ++ "%).")
  else if valid_values.length = 2 then
    let sv1 := valid_values.getD 0 ("", 0)
    let sv2 := valid_values.getD 1 ("", 0)
    if values_agree tolerance_percent sv1.2 sv2.2 then
      (ConfidenceLevel.MEDIUM,
        sv1.1 ++ " (" ++ fmt2 sv1.2 ++ "%) and " ++ sv2.1 ++ " (" ++ fmt2 sv2.2 ++
          "%) agree within tolerance. Third source unavailable for full triangulation.")
    else
      (ConfidenceLevel.LOW,
        sv1.1 ++ " (" ++ fmt2 sv1.2 ++ "%) and " ++ sv2.1 ++ " (" ++ fmt2 sv2.2 ++
          "%) disagree. Third source unavailable for tie-breaker.")
  else
    let fv := fred_val.getD 0
    let wv := wb_val.getD 0
    let ov := oecd_val.getD 0
    let fred_wb_agree := values_agree tolerance_percent fv wv
    let fred_oecd_agree := values_agree tolerance_percent fv ov
    let wb_oecd_agree := values_agree tolerance_percent wv ov
    let agreements := fred_wb_agree.toNat + fred_oecd_agree.toNat + wb_oecd_agree.toNat
    if agreements = 3 then
      (ConfidenceLevel.HIGH,
        "All three sources agree: FRED (" ++ fmt2 fv ++ "%), World Bank (" ++
          fmt2 wv ++ "%), OECD (" ++ fmt2 ov ++ "%).")
    else if 1 ≤ agreements then
      if fred_wb_agree then
        (ConfidenceLevel.MEDIUM,
          "FRED (" ++ fmt2 fv ++ "%) and World Bank (" ++ fmt2 wv ++
            "%) agree. OECD (" ++ fmt2 ov ++ "%) differs but serves as validation.")
      else if fred_oecd_agree then
        (ConfidenceLevel.MEDIUM,
          "FRED (" ++ fmt2 fv ++ "%) and OECD (" ++ fmt2 ov ++
            "%) agree. World Bank (" ++ fmt2 wv ++ "%) differs.")
      else
        (ConfidenceLevel.MEDIUM,
          "World Bank (" ++ fmt2 wv ++ "%) and OECD (" ++ fmt2 ov ++
            "%) agree. FRED (" ++ fmt2 fv ++ "%) differs.")
    else
      (ConfidenceLevel.LOW,
        "All sources disagree significantly: FRED (" ++ fmt2 fv ++ "%), World Bank (" ++
          fmt2 wv ++ "%), OECD (" ++ fmt2 ov ++ "%). Exercise caution with this data.")

/-- The number of agreeing pairs among three values, as summed by the
all-three-sources branch of `_determine_confidence`. -/
def agreeCount (tolerance_percent a b c : ℚ) : ℕ :=
  (values_agree tolerance_percent a b).toNat +
    (values_agree tolerance_percent a c).toNat +
    (values_agree tolerance_percent b c).toNat

/-- `TriangulationEngine.triangulate`, from the point where the three
provider `DataPoint`s are in hand (the fetches themselves are modelled
separately with the provider clients): confidence, consensus, period
selection, sources list and result construction follow
`triangulation.py` lines 183-221. -/
def triangulate (tolerance_percent : ℚ) (metric : MetricType) (country_code : String)
    (fred_data wb_data oecd_data : MacroDataPoint) : TriangulatedResult :=
  let ce := determine_confidence tolerance_percent fred_data.value wb_data.value oecd_data.value
  let confidence := ce.1
  let explanation := ce.2
  let valid_values := ([fred_data.value, wb_data.value, oecd_data.value]).filterMap id
  let consensus := calculate_consensus valid_values
  let periods :=
    (([fred_data, wb_data, oecd_data]).filter (fun d => !(d.period == "N/A"))).map
      (fun d => d.period)
  let period := match pyMax periods with | some p => p | none => "N/A"
  let sources_used :=
    (if fred_data.value.isSome then ["FRED"] else []) ++
    (if wb_data.value.isSome then ["World Bank"] else []) ++
    (if oecd_data.value.isSome then ["OECD"] else [])
  let country_name := ((COUNTRY_MAPPINGS country_code).map (fun ci => ci.name)).getD country_code
  { metric := metric.value
    country := country_name
    country_code := country_code
    period := period
    confidence := confidence
    consensus_value := consensus
    fred_value := fred_data.value
    worldbank_value := wb_data.value
    oecd_value := oecd_data.value
    explanation := explanation
    sources_used := sources_used
    disagreement_details :=
      if confidence = ConfidenceLevel.HIGH ∨ confidence = ConfidenceLevel.MEDIUM then none
      else some explanation }

/-! ## Provider clients (`data_pipeline/clients/fred.py`, `oecd.py`)

The HTTP call through the resilient fetch layer is modelled by a
`FetchOutcome` parameter: `raises msg` is the `requests.RequestException`
raised when the layer exhausts retries, receives an error status or fails
to decode the body (all subclasses of `RequestException`), and
`returnsJson j` is the decoded body of a successful response.  The wall
clock read by `_get_current_timestamp` is passed in as `now`.  The
`except requests.RequestException` clause of each client catches exactly
the `raises` outcome; every exception raised while parsing a decoded body
(`KeyError`, `ValueError`, `TypeError`, ...) is not a `RequestException`
and therefore propagates out of `fetch_metric`, which the `Except.error`
results of the parse functions record. -/

inductive FetchOutcome where
  | raises (msg : String) : FetchOutcome
  | returnsJson (j : Json) : FetchOutcome

/-- `FREDClient._get_series_id`: the per-country entry when present,
otherwise the `default` template formatted with the country code (an empty
template when even `default` is absent). -/
def fred_get_series_id (metric : MetricType) (country_code : String) : String :=
  let metric_config := fredMetricConfig metric
  match List.lookup country_code metric_config with
  | some s => s
  | none =>
    let template := (List.lookup ("default") metric_config).getD ""
    pyFormatCountry template country_code

/-- A `MacroDataPoint` with no value, as built by the `value=None` return
statements of `FREDClient.fetch_metric`. -/
def fredEmptyDp (metric : MetricType) (country_name country_code now err : String) :
    MacroDataPoint :=
  { source := "FRED"
    metric := metric.value
    country := country_name
    country_code := country_code
    value := none
    unit := "percent"
    period := "N/A"
    retrieved_at := now
    raw_response := none
    error := some err }

/-- The loop `for obs in data["observations"]` of `FREDClient.fetch_metric`:
returns the first observation whose `value` field differs from the `"."`
sentinel, converted with `float()`; falls through to the
`All observations are missing values` data point when none qualifies. -/
def fredScanObs (data : Json) (metric : MetricType)
    (country_name country_code now : String) :
    List Json → Except PyExc MacroDataPoint
  | [] => Except.ok (fredEmptyDp metric country_name country_code now
      ("All observations are missing values"))
  | obs :: rest => do
    let v ← pyIndexKey obs ("value")
    if !(jsonEqStr v (".")) then do
      let q ← pyFloat v
      let d ← pyIndexKey obs ("date")
      let periodStr ← jsonAsStr d
      Except.ok
        { source := "FRED"
          metric := metric.value
          country := country_name
          country_code := country_code
          value := some q
          unit := "percent"
          period := periodStr
          retrieved_at := now
          raw_response := some data
          error := none }
    else fredScanObs data metric country_name country_code now rest

/-- The body of `FREDClient.fetch_metric` after a successful HTTP fetch and
JSON decode (`fred.py` lines 74-112). -/
def fredParse (data : Json) (metric : MetricType)
    (country_name country_code now : String) : Except PyExc MacroDataPoint := do
  let hasObs ← pyContainsKey data ("observations")
  if !hasObs then
    Except.ok (fredEmptyDp metric country_name country_code now ("No observations found"))
  else do
    let obsVal ← pyIndexKey data ("observations")
    if pyFalsy obsVal then
      Except.ok (fredEmptyDp metric country_name country_code now ("No observations found"))
    else do
      let obsList ← pyIter obsVal
      fredScanObs data metric country_name country_code now obsList

/-- `FREDClient.fetch_metric`: resolves the series id and country name, then
issues one fetch whose outcome is `outcome`; a `RequestException` is caught
and folded into a data point with `error` set, while a decoded body is
parsed by `fredParse`, whose own exceptions propagate. -/
def fred_fetch_metric (now : String) (outcome : FetchOutcome)
    (metric : MetricType) (country_code : String) : Except PyExc MacroDataPoint :=
  let _series_id := fred_get_series_id metric country_code
  let country_name :=
    ((COUNTRY_MAPPINGS country_code).map (fun ci => ci.name)).getD country_code
  match outcome with
  | FetchOutcome.raises msg =>
    Except.ok (fredEmptyDp metric country_name country_code now msg)
  | FetchOutcome.returnsJson data =>
    fredParse data metric country_name country_code now

/-- A `MacroDataPoint` with no value, as built by the `value=None` return
statements of `OECDClient.fetch_metric`. -/
def oecdEmptyDp (metric : MetricType) (country_name country_code now err : String) :
    MacroDataPoint :=
  { source := "OECD"
    metric := metric.value
    country := country_name
    country_code := country_code
    value := none
    unit := "percent"
    period := "N/A"
    retrieved_at := now
    raw_response := none
    error := some err }

/-- The generator `next((d for d in dimensions if d.get("id") ==
"TIME_PERIOD"), None)` of `OECDClient.fetch_metric`: scans the dimension
list for the first dict whose `id` is `TIME_PERIOD`; `d.get` on a non-dict
element raises `AttributeError` exactly as in Python. -/
def oecdFindTimeDim : List Json → Except PyExc (Option Json)
  | [] => Except.ok none
  | d :: rest => do
    let idv ← pyGet d ("id") Json.null
    if jsonEqStr idv ("TIME_PERIOD") then Except.ok (some d)
    else oecdFindTimeDim rest

/-- The period-extraction block of `OECDClient.fetch_metric` (`oecd.py`
lines 97-105): starts from `"N/A"`, and when a truthy `TIME_PERIOD`
dimension with truthy `values` exists, indexes it with the position taken
from the observation key. -/
def oecdExtractPeriod (data : Json) (last_key : String) : Except PyExc String := do
  let structureJs ← pyGet data ("structure") (Json.obj [])
  let dims ← pyGet structureJs ("dimensions") (Json.obj [])
  let dimensions ← pyGet dims ("observation") (Json.arr [])
  let dimList ← pyIter dimensions
  let time_dim ← oecdFindTimeDim dimList
  match time_dim with
  | none => Except.ok "N/A"
  | some td =>
    if pyFalsy td then Except.ok "N/A"
    else do
      let valsProbe ← pyGet td ("values") Json.null
      if pyFalsy valsProbe then Except.ok "N/A"
      else do
        let period_idx : ℤ ←
          if pyStrContains last_key (":") then
            match parsePyInt (((pySplitOnChar last_key ':').getLastD "")) with
            | some i => Except.ok i
            | none => Except.error (PyExc.valueError
                ("invalid literal for int with base 10"))
          else Except.ok 0
        let vals ← pyIndexKey td ("values")
        let n ← pyLen vals
        if period_idx < (n : ℤ) then do
          let entry ← pyIndexInt vals period_idx
          let idv ← pyGet entry ("id") (Json.str "N/A")
          jsonAsStr idv
        else Except.ok "N/A"

/-- The body of `OECDClient.fetch_metric` after a successful HTTP fetch and
JSON decode (`oecd.py` lines 63-117). -/
def oecdParse (data : Json) (metric : MetricType)
    (country_name country_code now : String) : Except PyExc MacroDataPoint := do
  let datasets ← pyGet data ("dataSets") (Json.arr [])
  if pyFalsy datasets then
    Except.ok (oecdEmptyDp metric country_name country_code now ("No datasets in response"))
  else do
    let ds0 ← pyIndexInt datasets 0
    let observations ← pyGet ds0 ("observations") (Json.obj [])
    if pyFalsy observations then
      Except.ok (oecdEmptyDp metric country_name country_code now
        ("No observations in dataset"))
    else do
      let keys ← pyKeys observations
      let sortedKeys := pySortStrings keys
      match sortedKeys.getLast? with
      | none => Except.error (PyExc.indexError ("list index out of range"))
      | some last_key => do
        let obsEntry ← pyIndexKey observations last_key
        let value ← pyIndexInt obsEntry 0
        let periodStr ← oecdExtractPeriod data last_key
        let valueOpt : Option ℚ ←
          match value with
          | Json.null => Except.ok none
          | v => do
            let q ← pyFloat v
            Except.ok (some q)
        Except.ok
          { source := "OECD"
            metric := metric.value
            country := country_name
            country_code := country_code
            value := valueOpt
            unit := "percent"
            period := periodStr
            retrieved_at := now
            raw_response := some data
            error := none }

/-- `OECDClient.fetch_metric`: resolves the OECD country code and dataset
path, issues one fetch, folds a `RequestException` into a data point with
`error` set, and otherwise parses the decoded body, whose exceptions
propagate. -/
def oecd_fetch_metric (now : String) (outcome : FetchOutcome)
    (metric : MetricType) (country_code : String) : Except PyExc MacroDataPoint :=
  let country_name :=
    ((COUNTRY_MAPPINGS country_code).map (fun ci => ci.name)).getD country_code
  let oecd_country :=
    ((COUNTRY_MAPPINGS country_code).map (fun ci => ci.oecd)).getD country_code
  let _dataset_path := pyFormatCountry (oecdMetricPath metric) oecd_country
  match outcome with
  | FetchOutcome.raises msg =>
    Except.ok (oecdEmptyDp metric country_name country_code now msg)
  | FetchOutcome.returnsJson data =>
    oecdParse data metric country_name country_code now

/-! ## Helper lemmas -/

/-- Insertion sort on rationals is invariant under permutation of its input:
two lists with the same elements sort to the same list, since `≤` on `ℚ` is
total, transitive and antisymmetric. -/
theorem insertionSort_eq_of_perm (xs ys : List ℚ) (h : xs.Perm ys) :
    xs.insertionSort (fun x y => x ≤ y) = ys.insertionSort (fun x y => x ≤ y) :=
  List.eq_of_perm_of_sorted
    (((List.perm_insertionSort _ xs).trans h).trans (List.perm_insertionSort _ ys).symm)
    (List.sorted_insertionSort _ xs) (List.sorted_insertionSort _ ys)

/-- For two positive arguments, `_values_agree` reduces to the relative
difference test with the absolute values unfolded. -/
theorem values_agree_pos_eval (tol a b : ℚ) (ha : 0 < a) (hb : 0 < b) :
    values_agree tol a b = decide (|a - b| / ((a + b) / 2) * 100 ≤ tol) := by
  unfold values_agree
  rw [if_neg (by rintro ⟨h, -⟩; exact absurd h ha.ne'),
      if_neg (by rintro (h | h); exacts [absurd h ha.ne', absurd h hb.ne']),
      abs_of_pos ha, abs_of_pos hb]

/-! ## C1 -/

/-- C1: for every tolerance, the confidence label returned by
`_determine_confidence` is a function of how many provider values are
present and of their pairwise agreement: 0 values give `NO_DATA`, 1 value
gives `SINGLE_SOURCE`, 2 values give `MEDIUM` exactly when the present pair
agrees and `LOW` otherwise, and 3 values give `HIGH` when all three pairs
agree, `MEDIUM` when exactly one or two pairs agree, and `LOW` when no pair
agrees. -/
theorem confidence_by_count_and_agreement (tol a b c : ℚ) :
    ((determine_confidence tol none none none).1 = ConfidenceLevel.NO_DATA) ∧
    ((determine_confidence tol (some a) none none).1 = ConfidenceLevel.SINGLE_SOURCE) ∧
    ((determine_confidence tol none (some b) none).1 = ConfidenceLevel.SINGLE_SOURCE) ∧
    ((determine_confidence tol none none (some c)).1 = ConfidenceLevel.SINGLE_SOURCE) ∧
    ((determine_confidence tol (some a) (some b) none).1 =
      if values_agree tol a b then ConfidenceLevel.MEDIUM else ConfidenceLevel.LOW) ∧
    ((determine_confidence tol (some a) none (some c)).1 =
      if values_agree tol a c then ConfidenceLevel.MEDIUM else ConfidenceLevel.LOW) ∧
    ((determine_confidence tol none (some b) (some c)).1 =
      if values_agree tol b c then ConfidenceLevel.MEDIUM else ConfidenceLevel.LOW) ∧
    ((determine_confidence tol (some a) (some b) (some c)).1 =
      if agreeCount tol a b c = 3 then ConfidenceLevel.HIGH
      else if agreeCount tol a b c = 1 ∨ agreeCount tol a b c = 2 then ConfidenceLevel.MEDIUM
      else ConfidenceLevel.LOW) := by
  refine ⟨?_, ?_, ?_, ?_, ?_, ?_, ?_, ?_⟩
  · simp [determine_confidence]
  · simp [determine_confidence]
  · simp [determine_confidence]
  · simp [determine_confidence]
  · cases hab : values_agree tol a b <;> simp [determine_confidence, hab]
  · cases hac : values_agree tol a c <;> simp [determine_confidence, hac]
  · cases hbc : values_agree tol b c <;> simp [determine_confidence, hbc]
  · cases hab : values_agree tol a b <;> cases hac : values_agree tol a c <;>
      cases hbc : values_agree tol b c <;>
      simp [determine_confidence, agreeCount, hab, hac, hbc]

/-! ## C2 -/

/-- C2: `_values_agree` returns true exactly when both values are zero, or
exactly one is zero and the absolute difference is within the tolerance, or
neither is zero and the relative difference
`|a - b| / ((|a| + |b|) / 2) * 100` is within the tolerance. -/
theorem values_agree_characterization (tol a b : ℚ) :
    values_agree tol a b = true ↔
      ((a = 0 ∧ b = 0) ∨
       (((a = 0 ∧ b ≠ 0) ∨ (a ≠ 0 ∧ b = 0)) ∧ |a - b| ≤ tol) ∨
       (a ≠ 0 ∧ b ≠ 0 ∧ |a - b| / ((|a| + |b|) / 2) * 100 ≤ tol)) := by
  unfold values_agree
  by_cases h1 : a = 0 ∧ b = 0
  · rw [if_pos h1]
    simp only [true_iff]
    exact Or.inl h1
  · rw [if_neg h1]
    by_cases h2 : a = 0 ∨ b = 0
    · rw [if_pos h2]
      simp only [decide_eq_true_eq]
      constructor
      · intro h3
        refine Or.inr (Or.inl ⟨?_, h3⟩)
        tauto
      · rintro (h | ⟨-, h⟩ | ⟨ha, hb, -⟩)
        · exact absurd h h1
        · exact h
        · tauto
    · rw [if_neg h2]
      simp only [decide_eq_true_eq]
      push_neg at h2
      constructor
      · intro h3
        exact Or.inr (Or.inr ⟨h2.1, h2.2, h3⟩)
      · rintro (h | ⟨h, -⟩ | ⟨-, -, h⟩)
        · exact absurd h h1
        · tauto
        · exact h

/-- Whenever its input is non-empty, `_calculate_consensus` produces a
value: both median branches build a `some`. -/
theorem calculate_consensus_isSome (xs : List ℚ) (hxs : xs ≠ []) :
    (calculate_consensus xs).isSome = true := by
  unfold calculate_consensus
  rw [if_neg hxs]
  by_cases hn : xs.length % 2 = 0 <;> simp [hn]

/-- The consensus of `_calculate_consensus` only depends on the multiset of
values: permuting the input does not change it. -/
theorem calculate_consensus_perm (xs ys : List ℚ) (h : xs.Perm ys) :
    calculate_consensus xs = calculate_consensus ys := by
  by_cases hx : xs = []
  · subst hx
    rw [h.symm.eq_nil]
  · have hy : ys ≠ [] := by
      intro hy
      subst hy
      exact hx h.eq_nil
    unfold calculate_consensus
    rw [if_neg hx, if_neg hy, insertionSort_eq_of_perm xs ys h]

/-! ## C3 -/

/-- C3: `_calculate_consensus` returns a value for every non-empty list,
and the value is invariant under permutation of the input; in particular
consensus of a sorted copy equals consensus of the original. -/
theorem consensus_defined_and_permutation_invariant :
    (∀ xs : List ℚ, xs ≠ [] → (calculate_consensus xs).isSome = true) ∧
    (∀ xs ys : List ℚ, xs.Perm ys → calculate_consensus xs = calculate_consensus ys) ∧
    (∀ xs : List ℚ,
      calculate_consensus (xs.insertionSort (fun x y => x ≤ y)) = calculate_consensus xs) :=
  ⟨calculate_consensus_isSome, calculate_consensus_perm,
   fun xs => calculate_consensus_perm _ _ (List.perm_insertionSort _ xs)⟩

/-- Witness for C3 at a concrete list: `[3, 1, 2]` has a consensus and it
equals the consensus of its sorted permutation `[1, 2, 3]`. -/
theorem consensus_defined_and_permutation_invariant_witness :
    (calculate_consensus [3, 1, 2]).isSome = true ∧
    calculate_consensus [3, 1, 2] = calculate_consensus [1, 2, 3] :=
  ⟨consensus_defined_and_permutation_invariant.1 [3, 1, 2] (by decide),
   consensus_defined_and_permutation_invariant.2.1 [3, 1, 2] [1, 2, 3] (by decide)⟩

/-! ## C4 -/

/-- C4: the consensus value of a triangulated result is present exactly when
at least one provider data point carries a value, and with all three values
absent the confidence is `NO_DATA` and the consensus is absent. -/
theorem consensus_present_iff_any_value (tol : ℚ) (metric : MetricType)
    (cc : String) (f w o : MacroDataPoint) :
    ((triangulate tol metric cc f w o).consensus_value.isSome =
      (f.value.isSome || w.value.isSome || o.value.isSome)) ∧
    (f.value = none → w.value = none → o.value = none →
      (triangulate tol metric cc f w o).confidence = ConfidenceLevel.NO_DATA ∧
      (triangulate tol metric cc f w o).consensus_value = none) := by
  constructor
  · rcases hf : f.value with - | fv <;> rcases hw : w.value with - | wv <;>
      rcases ho : o.value with - | ov <;>
      simp [triangulate, hf, hw, ho] <;>
      first
        | exact calculate_consensus_isSome _ (by simp)
        | simp [calculate_consensus]
  · intro hf hw ho
    constructor
    · simp [triangulate, determine_confidence, hf, hw, ho]
    · simp [triangulate, calculate_consensus, hf, hw, ho]

/-- Witness for C4: with three concrete data points that all carry no value,
triangulation reports `NO_DATA` and no consensus. -/
theorem consensus_present_iff_any_value_witness :
    (triangulate (1/2) MetricType.inflation "USA"
        (fredEmptyDp MetricType.inflation "United States" "USA" "T" "No observations found")
        (fredEmptyDp MetricType.inflation "United States" "USA" "T" "No data available")
        (fredEmptyDp MetricType.inflation "United States" "USA" "T" "No datasets in response")).confidence =
      ConfidenceLevel.NO_DATA ∧
    (triangulate (1/2) MetricType.inflation "USA"
        (fredEmptyDp MetricType.inflation "United States" "USA" "T" "No observations found")
        (fredEmptyDp MetricType.inflation "United States" "USA" "T" "No data available")
        (fredEmptyDp MetricType.inflation "United States" "USA" "T" "No datasets in response")).consensus_value =
      none :=
  (consensus_present_iff_any_value (1/2) MetricType.inflation "USA" _ _ _).2 rfl rfl rfl

/-! ## C10 -/

/-- C10: `disagreement_details` of a triangulated result is absent exactly
when the confidence is `HIGH` or `MEDIUM`, and otherwise equals the
explanation string. -/
theorem disagreement_details_absent_iff_high_or_medium (tol : ℚ) (metric : MetricType)
    (cc : String) (f w o : MacroDataPoint) :
    ((triangulate tol metric cc f w o).disagreement_details = none ↔
      ((triangulate tol metric cc f w o).confidence = ConfidenceLevel.HIGH ∨
       (triangulate tol metric cc f w o).confidence = ConfidenceLevel.MEDIUM)) ∧
    ((triangulate tol metric cc f w o).disagreement_details =
        some (triangulate tol metric cc f w o).explanation ↔
      ¬((triangulate tol metric cc f w o).confidence = ConfidenceLevel.HIGH ∨
        (triangulate tol metric cc f w o).confidence = ConfidenceLevel.MEDIUM)) := by
  by_cases h : (determine_confidence tol f.value w.value o.value).1 = ConfidenceLevel.HIGH ∨
      (determine_confidence tol f.value w.value o.value).1 = ConfidenceLevel.MEDIUM <;>
    simp [triangulate, h]

/-! ## C5 -/

/-- C5 counterexample: for GDP growth and the country code `BRA`, FRED has
no per-country mapping entry in its table, yet `fetch_metric` does not
return a value-less data point with a no-series reason and no fetch:
`_get_series_id` fabricates the id `CLVMNACSCAB1GQBRA` from the `default`
template, and the result of `fetch_metric` still depends on the outcome of
the issued fetch (two different transport failures give two different data
points, each carrying the transport error rather than a no-series
reason). -/
theorem missing_series_counterexample :
    List.lookup ("BRA") (fredMetricConfig MetricType.gdp_growth) = none ∧
    fred_get_series_id MetricType.gdp_growth "BRA" = "CLVMNACSCAB1GQBRA" ∧
    fred_fetch_metric "T" (FetchOutcome.raises ("transport failure A"))
        MetricType.gdp_growth "BRA" ≠
      fred_fetch_metric "T" (FetchOutcome.raises ("transport failure B"))
        MetricType.gdp_growth "BRA" := by
  refine ⟨rfl, rfl, ?_⟩
  intro h
  have h2 := congrArg
    (fun r => match r with | Except.ok dp => dp.error | Except.error _ => none) h
  simp only [fred_fetch_metric, fredEmptyDp] at h2
  exact absurd h2 (by decide)

/-- C5 amended: every FRED metric table carries a `default` fallback
template, so a series id is resolved for every metric/country pair and
`fetch_metric` always issues a fetch through the resilient layer — its
result depends on the fetch outcome for every input, and no branch of any
client produces a no-series data point without fetching. -/
theorem fred_always_resolves_and_fetches (m : MetricType) (c : String) :
    (List.lookup ("default") (fredMetricConfig m)).isSome = true ∧
    ∃ o₁ o₂ : FetchOutcome,
      fred_fetch_metric "T" o₁ m c ≠ fred_fetch_metric "T" o₂ m c := by
  constructor
  · cases m <;> rfl
  · refine ⟨FetchOutcome.raises ("transport failure A"),
      FetchOutcome.raises ("transport failure B"), ?_⟩
    intro h
    have h2 := congrArg
      (fun r => match r with | Except.ok dp => dp.error | Except.error _ => none) h
    simp only [fred_fetch_metric, fredEmptyDp] at h2
    exact absurd h2 (by decide)

/-! ## C6 -/

/-- A decoded FRED body of the expected shape whose single observation has
the non-numeric value string `abc`. -/
def fredBadValueJson : Json :=
  Json.obj [("observations",
    Json.arr [Json.obj [("value", Json.str "abc"), ("date", Json.str "2024-01-01")]])]

/-- C6 counterexample: on a response whose observation value is the
non-numeric string `abc`, `FREDClient.fetch_metric` does not return a data
point at all — `float("abc")` raises `ValueError`, which the
`except requests.RequestException` clause does not catch, so the exception
propagates to the caller. -/
theorem fetch_metric_propagates_parse_exception :
    fred_fetch_metric "T" (FetchOutcome.returnsJson fredBadValueJson)
        MetricType.inflation "USA" =
      Except.error (PyExc.valueError ("could not convert string to float: abc")) := by
  rfl

/-- C6 amended: transport-level failures are indeed contained — whenever
the resilient fetch layer raises a `requests.RequestException` (retry
exhaustion, error status, body-decoding failure), both the FRED and the
OECD `fetch_metric` return a data point with no value and with `error` set
to the failure message instead of propagating — but parse failures inside a
successfully decoded body are not converted (see the counterexample). -/
theorem fetch_metric_contains_transport_failures (now msg : String)
    (m : MetricType) (c : String) :
    (∃ dp, fred_fetch_metric now (FetchOutcome.raises msg) m c = Except.ok dp ∧
      dp.value = none ∧ dp.error = some msg) ∧
    (∃ dp, oecd_fetch_metric now (FetchOutcome.raises msg) m c = Except.ok dp ∧
      dp.value = none ∧ dp.error = some msg) :=
  ⟨⟨_, rfl, rfl, rfl⟩, ⟨_, rfl, rfl, rfl⟩⟩

/-! ## C7 -/

/-- With tolerance 0.5, the values 2.50 and 2.51 agree: the relative
difference is 200/501 percent. -/
theorem values_agree_half_250_251 : values_agree (2⁻¹) ((5:ℚ)/2) (251/100) = true := by
  rw [values_agree_pos_eval _ _ _ (by norm_num) (by norm_num),
      show |(5:ℚ)/2 - 251/100| = 1/100 from by norm_num]
  norm_num

/-- With tolerance 0.5, the values 2.50 and 2.49 agree: the relative
difference is 200/499 percent. -/
theorem values_agree_half_250_249 : values_agree (2⁻¹) ((5:ℚ)/2) (249/100) = true := by
  rw [values_agree_pos_eval _ _ _ (by norm_num) (by norm_num),
      show |(5:ℚ)/2 - 249/100| = 1/100 from by norm_num]
  norm_num

/-- With tolerance 0.5, the values 2.51 and 2.49 do not agree: the relative
difference is 0.8 percent. -/
theorem values_agree_half_251_249 : values_agree (2⁻¹) ((251:ℚ)/100) (249/100) = false := by
  rw [values_agree_pos_eval _ _ _ (by norm_num) (by norm_num),
      show |(251:ℚ)/100 - 249/100| = 1/50 from by norm_num]
  norm_num

/-- C7 counterexample: with tolerance 0.5 the three values 2.50, 2.51, 2.49
do not produce `HIGH` confidence — 2.51 and 2.49 differ by 0.8 percent,
which exceeds the tolerance, so only two of the three pairs agree. -/
theorem example_triple_not_high :
    (determine_confidence (1/2) (some ((5:ℚ)/2)) (some (251/100)) (some (249/100))).1 ≠
      ConfidenceLevel.HIGH := by
  simp [determine_confidence, values_agree_half_250_251, values_agree_half_250_249,
    values_agree_half_251_249]

/-- C7 amended: with tolerance 0.5 the values 2.50, 2.51, 2.49 yield
confidence `MEDIUM` (the FRED/World-Bank and FRED/OECD pairs agree, the
2.51-vs-2.49 pair does not), and the consensus is the median 2.50. -/
theorem example_triple_medium_with_median_consensus :
    (determine_confidence (1/2) (some ((5:ℚ)/2)) (some (251/100)) (some (249/100))).1 =
      ConfidenceLevel.MEDIUM ∧
    calculate_consensus [(5:ℚ)/2, 251/100, 249/100] = some (5/2) := by
  constructor
  · simp [determine_confidence, values_agree_half_250_251, values_agree_half_250_249,
      values_agree_half_251_249]
  · unfold calculate_consensus
    rw [if_neg (by simp)]
    norm_num [List.insertionSort, List.orderedInsert, List.getD]

/-! ## C8 -/

/-- A FRED inflation data point for the end-to-end scenario: value 3.4. -/
def fredDpScenario : MacroDataPoint :=
  { source := "FRED"
    metric := "inflation"
    country := "United States"
    country_code := "USA"
    value := some ((17:ℚ)/5)
    unit := "percent"
    period := "2024-06-01"
    retrieved_at := "T"
    raw_response := none
    error := none }

/-- A World Bank inflation data point for the end-to-end scenario:
value 3.5. -/
def wbDpScenario : MacroDataPoint :=
  { source := "World Bank"
    metric := "inflation"
    country := "United States"
    country_code := "USA"
    value := some ((7:ℚ)/2)
    unit := "percent"
    period := "2023"
    retrieved_at := "T"
    raw_response := none
    error := none }

/-- An OECD data point with no value for the end-to-end scenario. -/
def oecdDpScenario : MacroDataPoint :=
  { source := "OECD"
    metric := "inflation"
    country := "United States"
    country_code := "USA"
    value := none
    unit := "percent"
    period := "N/A"
    retrieved_at := "T"
    raw_response := none
    error := some "No datasets in response" }

/-- With tolerance 0.5, the values 3.4 and 3.5 do not agree: the relative
difference is 200/69, about 2.9 percent. -/
theorem values_agree_half_34_35 : values_agree (2⁻¹) ((17:ℚ)/5) (7/2) = false := by
  rw [values_agree_pos_eval _ _ _ (by norm_num) (by norm_num),
      show |(17:ℚ)/5 - 7/2| = 1/10 from by norm_num]
  norm_num

/-- C8: with tolerance 0.5, FRED at 3.4, World Bank at 3.5 and OECD absent,
triangulation reports confidence `LOW` (the two values differ by about 2.9
percent), consensus 3.45 (the even-count median, i.e. the average), and the
sources used are `FRED` then `World Bank` in call order. -/
theorem two_source_disagreement_scenario :
    (triangulate (1/2) MetricType.inflation "USA"
        fredDpScenario wbDpScenario oecdDpScenario).confidence = ConfidenceLevel.LOW ∧
    (triangulate (1/2) MetricType.inflation "USA"
        fredDpScenario wbDpScenario oecdDpScenario).consensus_value = some ((69:ℚ)/20) ∧
    (triangulate (1/2) MetricType.inflation "USA"
        fredDpScenario wbDpScenario oecdDpScenario).sources_used = ["FRED", "World Bank"] := by
  refine ⟨?_, ?_, rfl⟩
  · simp [triangulate, determine_confidence, fredDpScenario, wbDpScenario, oecdDpScenario,
      values_agree_half_34_35]
  · have h : (triangulate (1/2) MetricType.inflation "USA"
        fredDpScenario wbDpScenario oecdDpScenario).consensus_value =
        calculate_consensus [(17:ℚ)/5, 7/2] := rfl
    rw [h]
    unfold calculate_consensus
    rw [if_neg (by simp)]
    norm_num [List.insertionSort, List.orderedInsert, List.getD]

/-! ## C9 -/

/-- A decoded OECD SDMX body whose single observation carries a `null`
value but a valid `TIME_PERIOD` label `2024`. -/
def oecdNullObsJson : Json :=
  Json.obj
    [("dataSets", Json.arr [Json.obj
        [("observations", Json.obj [("0:0", Json.arr [Json.null])])]]),
     ("structure", Json.obj [("dimensions", Json.obj [("observation",
        Json.arr [Json.obj [("id", Json.str "TIME_PERIOD"),
          ("values", Json.arr [Json.obj [("id", Json.str "2024")]])]])])])]

/-- The data point `OECDClient.fetch_metric` builds from
`oecdNullObsJson`: no value, but period `2024`. -/
def oecdNullObsDp : MacroDataPoint :=
  { source := "OECD"
    metric := "inflation"
    country := "United States"
    country_code := "USA"
    value := none
    unit := "percent"
    period := "2024"
    retrieved_at := "T"
    raw_response := some oecdNullObsJson
    error := none }

/-- A FRED data point contributing the only value, with period `2020`. -/
def fredDpPeriod : MacroDataPoint :=
  { source := "FRED"
    metric := "inflation"
    country := "United States"
    country_code := "USA"
    value := some 3
    unit := "percent"
    period := "2020"
    retrieved_at := "T"
    raw_response := none
    error := none }

/-- A World Bank data point with neither value nor period. -/
def wbDpPeriod : MacroDataPoint :=
  { source := "World Bank"
    metric := "inflation"
    country := "United States"
    country_code := "USA"
    value := none
    unit := "percent"
    period := "N/A"
    retrieved_at := "T"
    raw_response := none
    error := some "No data available" }

/-- C9 counterexample: the OECD client really can return a data point with
no value but a non-sentinel period (observation value `null`, period label
`2024`), the only value-contributing data point of the triple has period
`2020`, and yet `triangulate` selects `2024` — the period filter at
`triangulation.py` line 193 keeps every non-`N/A` period, not only the
periods of providers that contributed a value. -/
theorem period_from_noncontributing_source :
    oecd_fetch_metric "T" (FetchOutcome.returnsJson oecdNullObsJson)
        MetricType.inflation "USA" = Except.ok oecdNullObsDp ∧
    (([fredDpPeriod, wbDpPeriod, oecdNullObsDp].filter
        (fun d => d.value.isSome)).map (fun d => d.period)) = ["2020"] ∧
    (triangulate (1/2) MetricType.inflation "USA"
        fredDpPeriod wbDpPeriod oecdNullObsDp).period = "2024" ∧
    ("2024" : String) ≠ "2020" :=
  ⟨rfl, rfl, rfl, by decide⟩

/-- C9 amended: the period of a triangulated result is the
lexicographically maximal non-`N/A` period string among all three returned
data points — whether or not their provider contributed a value — and `N/A`
when none exists. -/
theorem period_is_max_over_all_returned_periods (tol : ℚ) (metric : MetricType)
    (cc : String) (f w o : MacroDataPoint) :
    (triangulate tol metric cc f w o).period =
      (match pyMax (([f.period, w.period, o.period]).filter
          (fun p => !(p == "N/A"))) with
       | some p => p
       | none => "N/A") := by
  have hmap : (([f, w, o] : List MacroDataPoint).filter
        (fun d => !(d.period == "N/A"))).map (fun d => d.period) =
      ([f.period, w.period, o.period]).filter (fun p => !(p == "N/A")) := by
    cases hf : f.period == "N/A" <;> cases hw : w.period == "N/A" <;>
      cases ho : o.period == "N/A" <;>
      simp [List.filter_cons, hf, hw, ho]
  simp only [triangulate, hmap]
